import Mathlib

/-!
Verification development for the guest identity-verification backend
(`pages/api/verify` handler): the session state machine, the multi-guest
quorum tracker, the TD3 MRZ parser, the Textract field normalizer, and the
face verification scoring engine.  All definitions are shallow embeddings of
the JavaScript source; JavaScript strings are modelled as `String` /
`List Char`, numbers as `ℤ` (counts) and `ℚ` (scores), nullable values as
`Option`, and the Supabase session row as the `Session` structure.
-/

namespace RoomQuest

/-- JavaScript whitespace characters relevant to the `\s` regex class and
`String.prototype.trim` for the ASCII inputs this backend handles. -/
def isJsWs (c : Char) : Bool :=
  c = ' ' || c = '\t' || c = '\n' || c = '\r' || c = '\x0b' || c = '\x0c'

/-- JavaScript `String.prototype.trim`: drop leading and trailing whitespace. -/
def trimList (l : List Char) : List Char :=
  ((l.dropWhile isJsWs).reverse.dropWhile isJsWs).reverse

/-- Squeeze runs of spaces to a single space (helper for the `\s+`
replacement regexes). -/
def squeezeSp : List Char → List Char
  | [] => []
  | [c] => [c]
  | a :: b :: rest =>
    if a = ' ' && b = ' ' then squeezeSp (b :: rest)
    else a :: squeezeSp (b :: rest)

/-- The `replace(/\s+/g, ...)` step with replacement `repl`: each maximal whitespace run becomes
the single character `repl`. -/
def collapseWsTo (repl : Char) (l : List Char) : List Char :=
  (squeezeSp (l.map fun c => if isJsWs c then ' ' else c)).map
    fun c => if c = ' ' then repl else c

/-- JavaScript string truthiness for a nullable string: `undefined`, `null`
and `""` are falsy, hence `x || null` collapses them all to `null`. -/
def truthyStr (o : Option String) : Option String :=
  o.bind fun v => if v = "" then none else some v

/-- Source `normalizeGuestName`: lowercase, trim, collapse whitespace runs to one
space, strip characters that are not letters, digits or whitespace
(the `\p{L}\p{N}\s` classes, modelled for ASCII input). -/
def normalizeGuestName (name : String) : String :=
  String.mk (((collapseWsTo ' ' (trimList (name.toList.map Char.toLower)))).filter
    fun c => c.isAlpha || c.isDigit || isJsWs c)

/-- Source `normalizeReservationNumber`: uppercase, trim, strip whitespace and
hyphens. -/
def normalizeReservationNumber (v : String) : String :=
  String.mk ((trimList (v.toList.map Char.toUpper)).filter
    fun c => !(isJsWs c || c = '-'))

/-- Source `normalizeKey`: trim, lowercase, replace whitespace runs with `_`
(used on Textract field labels). -/
def normalizeKey (k : String) : String :=
  String.mk (collapseWsTo '_' ((trimList k.toList).map Char.toLower))

/-- Source `toIntOrNull` applied to a JSON value already known to be a nullable
integer: the identity on the model's `Option ℤ`. -/
def toIntOrNull (v : Option ℤ) : Option ℤ := v

/-- Source `clampInt(n, min, max)`: `min` when the value is null, otherwise
`Math.min(Math.max(x, min), max)`. -/
def clampInt (v : Option ℤ) (lo hi : ℤ) : ℤ :=
  match toIntOrNull v with
  | none => lo
  | some x => min (max x lo) hi

/-- Split a character list at `'\n'` separators (`String.prototype.split("\n")`). -/
def splitOnLF : List Char → List (List Char)
  | [] => [[]]
  | c :: rest =>
    let r := splitOnLF rest
    if c = '\n' then [] :: r
    else (c :: r.headD []) :: r.tail

/-- The cleaning pass of `parseMrzTD3`: replace `\r` with `\n`, split into
lines, trim each, drop empty lines, join with no separator, strip remaining
whitespace, uppercase. -/
def cleanMrz (mrz : String) : List Char :=
  let joined :=
    (((splitOnLF ((mrz.toList).map fun c => if c = '\r' then '\n' else c)).map
      trimList).filter (· ≠ [])).flatten
  (joined.filter fun c => !isJsWs c).map Char.toUpper

/-- A fixed-width MRZ field: remove the `<` filler, trim, and turn the empty
result into `null` (`raw.replace(/</g, "").trim() || null`). -/
def stripFiller (l : List Char) : Option String :=
  let stripped := trimList (l.filter (· ≠ '<'))
  if stripped = [] then none else some (String.mk stripped)

/-- The `lines[i] || null` read: an empty line is falsy and becomes `null`. -/
def nullableOfLine (l : List Char) : Option String :=
  if l = [] then none else some (String.mk l)

/-- The fields `parseMrzTD3` returns. -/
structure ParsedMRZ where
  passport_number : Option String
  nationality : Option String
  sex : Option String
  dob_yymmdd : Option String
  exp_yymmdd : Option String
  line1 : Option String
  line2 : Option String
  deriving DecidableEq, Repr

/-- The `lines` computation of `parseMrzTD3`: split on explicit newlines
when any survived cleaning, else slice two 44-character lines when the
cleaned text is long enough. -/
def mrzLines (clean : List Char) : List (List Char) :=
  if clean.contains '\n' then (splitOnLF clean).filter (· ≠ [])
  else if clean.length ≥ 88 then [clean.take 44, (clean.drop 44).take 44]
  else if clean.length ≥ 44 then [clean.take 44, (clean.drop 44).take 44]
  else []

/-- Source `parseMrzTD3`: clean the free-form text, cut it into two 44-character
lines, right-pad line 2 with `<` and slice the fixed TD3 offsets.  Returns
`none` when fewer than two lines result. -/
def parseMrzTD3 (mrz : String) : Option ParsedMRZ :=
  let clean := cleanMrz mrz
  let lines := mrzLines clean
  if lines.length < 2 then none
  else
    let l2raw := lines.getD 1 []
    let l2 := l2raw ++ List.replicate (44 - l2raw.length) '<'
    some
      { passport_number := stripFiller (l2.take 9)
        nationality := stripFiller ((l2.drop 10).take 3)
        sex := stripFiller ((l2.drop 20).take 1)
        dob_yymmdd := stripFiller ((l2.drop 13).take 6)
        exp_yymmdd := stripFiller ((l2.drop 21).take 6)
        line1 := nullableOfLine (lines.getD 0 [])
        line2 := nullableOfLine l2raw }

/-- One entry of Textract's `IdentityDocumentFields`: the detected label
(`Type.Text`) and value (`ValueDetection.Text`), both possibly missing. -/
structure AnalyzeIdField where
  typeText : Option String
  valueText : Option String
  deriving DecidableEq, Repr

/-- The `raw` map built by `parseAnalyzeIdFields`: entries with a truthy
normalized key and a truthy value, later entries shadowing earlier ones
(prepended, looked up first-match). -/
def buildRaw (fields : List AnalyzeIdField) : List (String × String) :=
  fields.foldl
    (fun raw f =>
      let key := normalizeKey (f.typeText.getD "")
      match f.valueText with
      | some v => if key ≠ "" && v ≠ "" then (key, v) :: raw else raw
      | none => raw)
    []

/-- The `raw[key]` object lookup. -/
def rawGet (raw : List (String × String)) (key : String) : Option String :=
  raw.lookup key

/-- The canonical identity-fields record `parseAnalyzeIdFields` returns
(the JavaScript object's `raw` member is the assoc list itself). -/
structure IdentityFields where
  text : Option String
  id_type : Option String
  document_number : Option String
  last_name : Option String
  first_name : Option String
  middle_name : Option String
  date_of_birth : Option String
  date_of_issue : Option String
  expiration_date : Option String
  nationality : Option String
  sex : Option String
  mrz_code : Option String
  mrz_parsed : Option ParsedMRZ
  full_name : Option String
  raw : List (String × String)
  deriving DecidableEq, Repr

/-- Source `parseAnalyzeIdFields`: normalize the raw OCR label map, resolve each
canonical field through its label aliases, parse the MRZ text when present,
and let the MRZ-derived value fill only the fields the OCR labels left
absent. -/
def parseAnalyzeIdFields (fields : List AnalyzeIdField) : IdentityFields :=
  let raw := buildRaw fields
  let g := rawGet raw
  let first_name := g "first_name" <|> g "firstname" <|> g "given_name" <|> g "givenname"
  let middle_name := g "middle_name" <|> g "middlename" <|> g "second_name" <|> g "secondname"
  let last_name :=
    g "last_name" <|> g "lastname" <|> g "surname" <|> g "family_name" <|> g "familyname"
  let nameParts := [first_name, middle_name, last_name].filterMap id
  let full_name :=
    g "full_name" <|> g "name" <|>
      (if nameParts = [] then none else some (" ".intercalate nameParts))
  let dob := g "date_of_birth" <|> g "dob"
  let date_of_issue := g "date_of_issue" <|> g "issue_date"
  let expiration_date := g "expiration_date" <|> g "expiry_date" <|> g "expiry"
  let document_number :=
    g "document_number" <|> g "passport_number" <|> g "id_number" <|>
      g "identity_document_number" <|> g "personal_number"
  let id_type := g "id_type"
  let mrz_code := g "mrz_code" <|> g "mrz"
  let sex := g "sex" <|> g "gender"
  let nationality := g "nationality" <|> g "country"
  let mrz_parsed := mrz_code.bind parseMrzTD3
  { text := none
    id_type := id_type
    document_number := document_number <|> mrz_parsed.bind ParsedMRZ.passport_number
    last_name := last_name
    first_name := first_name
    middle_name := middle_name
    date_of_birth := dob <|> mrz_parsed.bind ParsedMRZ.dob_yymmdd
    date_of_issue := date_of_issue
    expiration_date := expiration_date <|> mrz_parsed.bind ParsedMRZ.exp_yymmdd
    nationality := nationality <|> mrz_parsed.bind ParsedMRZ.nationality
    sex := sex <|> mrz_parsed.bind ParsedMRZ.sex
    mrz_code := mrz_code
    mrz_parsed := mrz_parsed
    full_name := full_name
    raw := raw }

/-- The session `status` strings the handler writes. -/
inductive Status where
  | started
  | consent_logged
  | guest_info_saved
  | document_uploaded
  | partial_verified
  | verified
  | failed
  deriving DecidableEq, Repr

/-- The `current_step` strings the handler writes. -/
inductive Step where
  | welcome
  | document
  | selfie
  | results
  deriving DecidableEq, Repr

/-- The `extracted_info` JSON column: pipeline text, the tri-state
`textract_ok` flag and the normalized fields. -/
structure ExtractedInfo where
  text : Option String
  textract_ok : Option Bool
  textract : Option IdentityFields
  deriving DecidableEq, Repr

/-- A `demo_sessions` row, with every nullable column an `Option`. -/
structure Session where
  session_token : String
  status : Option Status
  current_step : Option Step
  consent_given : Option Bool
  consent_time : Option String
  consent_locale : Option String
  guest_name : Option String
  room_number : Option String
  document_url : Option String
  selfie_url : Option String
  is_verified : Option Bool
  verification_score : Option ℚ
  liveness_score : Option ℚ
  face_match_score : Option ℚ
  extracted_info : Option ExtractedInfo
  expected_guest_count : Option ℤ
  verified_guest_count : Option ℤ
  requires_additional_guest : Option Bool
  deriving DecidableEq, Repr

/-- The S3 bucket name (`S3_BUCKET_NAME` environment variable). -/
def bucketName : String := "S3BUCKET"

/-- Source `parseS3Url`: match `^s3:\/\/([^\/]+)\/(.+)$` and return
`(bucket, key)`; the dot of `.+` does not match a line terminator. -/
def parseS3Url (s3Url : String) : Option (String × String) :=
  match s3Url.toList with
  | 's' :: '3' :: ':' :: '/' :: '/' :: rest =>
    let bucket := rest.takeWhile (· ≠ '/')
    match bucket, rest.dropWhile (· ≠ '/') with
    | [], _ => none
    | _, '/' :: key =>
      if key = [] || key.contains '\n' || key.contains '\r' then none
      else some (String.mk bucket, String.mk key)
    | _, _ => none
  | _ => none

/-- The `inferStepFromSession` fallback inference: explicit step first, then
terminal artifacts before earlier ones. -/
def inferStepFromSession (session : Option Session) : Step :=
  match session with
  | none => Step.welcome
  | some s =>
    match s.current_step with
    | some st => st
    | none =>
      if s.is_verified = some true ∨ s.verification_score ≠ none then Step.results
      else if truthyStr s.selfie_url ≠ none then Step.results
      else if truthyStr s.document_url ≠ none then Step.selfie
      else if truthyStr s.guest_name ≠ none ∨ truthyStr s.room_number ≠ none then
        Step.document
      else Step.welcome

/-- The `start` action: a fresh row with one expected guest, none verified. -/
def start_session (token : String) : Session :=
  let expected_guest_count : ℤ := 1
  let verified_guest_count : ℤ := 0
  { session_token := token
    status := some Status.started
    current_step := some Step.welcome
    consent_given := none
    consent_time := none
    consent_locale := none
    guest_name := none
    room_number := none
    document_url := none
    selfie_url := none
    is_verified := none
    verification_score := none
    liveness_score := none
    face_match_score := none
    extracted_info := none
    expected_guest_count := some expected_guest_count
    verified_guest_count := some verified_guest_count
    requires_additional_guest := some (decide (expected_guest_count > verified_guest_count)) }

/-- A `booking_email_index` row as the `update_guest` lookup selects it. -/
structure BookingRow where
  adults : Option ℤ
  deriving DecidableEq, Repr

/-- How `update_guest` ends. -/
inductive UpdateGuestRes where
  | missingFields
  | reservationNotFound
  | ok (expected verified : ℤ) (requires : Bool) (remaining : ℤ)
  deriving DecidableEq, Repr

/-- The `update_guest` action.  `dir` is the Reservation Directory: the
`booking_email_index` lookup keyed by the normalized guest name and
reservation number.  Returns the response and the session row afterwards. -/
def update_guest (s : Session) (guest_name booking_ref room_number : Option String)
    (expected_guest_count : Option ℤ)
    (dir : String → String → Option BookingRow) : UpdateGuestRes × Session :=
  let bookingValue := truthyStr booking_ref <|> truthyStr room_number
  match truthyStr guest_name, bookingValue with
  | some gname, some bval =>
    let guestNameNorm := normalizeGuestName gname
    let resNorm := normalizeReservationNumber bval
    match dir guestNameNorm resNorm with
    | none => (UpdateGuestRes.reservationNotFound, s)
    | some bookingRow =>
      let adultsFromEmail := bookingRow.adults.getD 1
      let expectedFromEmail := clampInt (some adultsFromEmail) 1 10
      let expectedOverride := toIntOrNull expected_guest_count
      let expectedToSet :=
        match expectedOverride with
        | none => expectedFromEmail
        | some o => clampInt (some o) 1 10
      let verified := clampInt s.verified_guest_count 0 10
      let requires := decide (verified < expectedToSet)
      (UpdateGuestRes.ok expectedToSet verified requires (max (expectedToSet - verified) 0),
        { s with
          guest_name := some gname
          room_number := some bval
          status := some Status.guest_info_saved
          current_step := some Step.document
          expected_guest_count := some expectedToSet
          requires_additional_guest := some requires })
  | _, _ => (UpdateGuestRes.missingFields, s)

/-- How `upload_document` ends. -/
inductive UploadRes where
  | missingImage
  | imageTooSmall
  | accepted
  deriving DecidableEq, Repr

/-- The pending marker written while extraction runs in the background. -/
def pendingExtractedInfo : ExtractedInfo :=
  { text := some "Textract pending (async)", textract_ok := none, textract := none }

/-- The `upload_document` action: `image_len` is the decoded image byte
length (`none` when `image_data` is missing).  On success the row gets the
document pointer, the selfie step, and the pending extraction marker; the
optional `guest_name` / `room_number` inputs are written through `|| null`. -/
def upload_document (s : Session) (image_len : Option ℕ)
    (guest_name room_number : Option String) : UploadRes × Session :=
  match image_len with
  | none => (UploadRes.missingImage, s)
  | some len =>
    if len < 1000 then (UploadRes.imageTooSmall, s)
    else
      let s3Key := "demo/" ++ s.session_token ++ "/document.jpg"
      let documentUrl := "s3://" ++ bucketName ++ "/" ++ s3Key
      (UploadRes.accepted,
        { s with
          status := some Status.document_uploaded
          current_step := some Step.selfie
          document_url := some documentUrl
          guest_name := truthyStr guest_name
          room_number := truthyStr room_number
          extracted_info := some pendingExtractedInfo })

/-- The first `FaceDetails` entry Rekognition returns for the selfie. -/
structure FaceDetail where
  eyes_open : Option Bool
  brightness : Option ℚ
  confidence : Option ℚ
  deriving DecidableEq, Repr

/-- The heuristic `isLive`: `Boolean(face?.EyesOpen?.Value) && (face?.Quality?.Brightness || 0) > 40`. -/
def derivedIsLive (face : Option FaceDetail) : Bool :=
  (face.bind FaceDetail.eyes_open).getD false
    && decide (((face.bind FaceDetail.brightness).getD 0) > (40 : ℚ))

/-- The score `livenessScore = (face?.Confidence || 0) / 100`. -/
def derivedLivenessScore (face : Option FaceDetail) : ℚ :=
  ((face.bind FaceDetail.confidence).getD 0) / 100

/-- The score `similarity = (compareResult.FaceMatches?.[0]?.Similarity || 0) / 100`. -/
def derivedSimilarity (compareSimilarity : Option ℚ) : ℚ :=
  (compareSimilarity.getD 0) / 100

/-- The clamped read of `expected_guest_count` (`clampInt(…, 1, 10)`). -/
def expectedOf (s : Session) : ℤ :=
  clampInt s.expected_guest_count 1 10

/-- The clamped read of `verified_guest_count` (`clampInt(…, 0, 10)`). -/
def verifiedBeforeOf (s : Session) : ℤ :=
  clampInt s.verified_guest_count 0 10

/-- The Guest Quorum Tracker mutation: a success bumps the verified count,
capped at the expected count; a failure leaves it alone; the
needs-more-guests flag is recomputed from the new count. -/
def recordVerificationOutcome (verifiedBefore expected : ℤ) (success : Bool) : ℤ × Bool :=
  let verifiedAfter := if success then min (verifiedBefore + 1) expected else verifiedBefore
  (verifiedAfter, decide (verifiedAfter < expected))

/-- The decision `isVerified = isLive && similarity >= 0.65`: the per-guest decision. -/
def guestDecision (face : Option FaceDetail) (compareSimilarity : Option ℚ) : Bool :=
  derivedIsLive face && decide (derivedSimilarity compareSimilarity ≥ (0.65 : ℚ))

/-- The verified count after this `verify_face` submission. -/
def verifiedAfterOf (s : Session) (face : Option FaceDetail)
    (compareSimilarity : Option ℚ) : ℤ :=
  (recordVerificationOutcome (verifiedBeforeOf s) (expectedOf s)
    (guestDecision face compareSimilarity)).1

/-- The recomputed `requires_additional_guest` flag after this submission. -/
def requiresOf (s : Session) (face : Option FaceDetail)
    (compareSimilarity : Option ℚ) : Bool :=
  (recordVerificationOutcome (verifiedBeforeOf s) (expectedOf s)
    (guestDecision face compareSimilarity)).2

/-- The composite `verificationScore = (isLive ? 0.4 : 0) + livenessScore*0.3 + similarity*0.3`. -/
def verificationScoreOf (face : Option FaceDetail) (compareSimilarity : Option ℚ) : ℚ :=
  (if derivedIsLive face then (0.4 : ℚ) else 0)
    + derivedLivenessScore face * (0.3 : ℚ)
    + derivedSimilarity compareSimilarity * (0.3 : ℚ)

/-- The session status `verify_face` writes: `failed`, upgraded to
`partial_verified` or `verified` when this guest passed. -/
def statusToSetOf (s : Session) (face : Option FaceDetail)
    (compareSimilarity : Option ℚ) : Status :=
  if guestDecision face compareSimilarity && requiresOf s face compareSimilarity then
    Status.partial_verified
  else if guestDecision face compareSimilarity && !requiresOf s face compareSimilarity then
    Status.verified
  else Status.failed

/-- The flag `overallVerified = isVerified && !requiresAdditionalGuest`: the
session-level flag. -/
def overallVerifiedOf (s : Session) (face : Option FaceDetail)
    (compareSimilarity : Option ℚ) : Bool :=
  guestDecision face compareSimilarity && !requiresOf s face compareSimilarity

/-- How `verify_face` ends. -/
inductive VerifyRes where
  | noDocument
  | invalidDocumentUrl
  | ok
  deriving DecidableEq, Repr

/-- The `verify_face` action, gated on a stored document pointer.  `face`
models the Rekognition `DetectFaces` result on the selfie and
`compareSimilarity` the best `CompareFaces` match similarity (in 0..100);
the scoring, decision, quorum update and row write follow the source. -/
def verify_face (s : Session) (face : Option FaceDetail)
    (compareSimilarity : Option ℚ) : VerifyRes × Session :=
  if (s.document_url.getD "") = "" then (VerifyRes.noDocument, s)
  else
    let expected := expectedOf s
    let verifiedBefore := verifiedBeforeOf s
    let selfieIndex := min (verifiedBefore + 1) 10
    let selfieKey :=
      "demo/" ++ s.session_token ++ "/selfie_" ++ toString selfieIndex ++ ".jpg"
    let selfieUrl := "s3://" ++ bucketName ++ "/" ++ selfieKey
    match parseS3Url (s.document_url.getD "") with
    | none => (VerifyRes.invalidDocumentUrl, s)
    | some _ =>
      (VerifyRes.ok,
        { s with
          status := some (statusToSetOf s face compareSimilarity)
          current_step := some Step.results
          selfie_url := some selfieUrl
          is_verified := some (overallVerifiedOf s face compareSimilarity)
          verification_score := some (verificationScoreOf face compareSimilarity)
          liveness_score := some (derivedLivenessScore face)
          face_match_score := some (derivedSimilarity compareSimilarity)
          expected_guest_count := some expected
          verified_guest_count := some (verifiedAfterOf s face compareSimilarity)
          requires_additional_guest := some (requiresOf s face compareSimilarity) })

/-- The session rows reachable from `start` through the state-mutating
actions of the handler (`update_guest`, `upload_document`, `verify_face`);
a rejected request leaves the row as it was, which the operations return. -/
inductive Reachable : Session → Prop where
  | start (token : String) : Reachable (start_session token)
  | update_guest (s : Session) (gn br rn : Option String) (egc : Option ℤ)
      (dir : String → String → Option BookingRow) (h : Reachable s) :
      Reachable (update_guest s gn br rn egc dir).2
  | upload_document (s : Session) (len : Option ℕ) (gn rn : Option String)
      (h : Reachable s) : Reachable (upload_document s len gn rn).2
  | verify_face (s : Session) (face : Option FaceDetail) (cmp : Option ℚ)
      (h : Reachable s) : Reachable (verify_face s face cmp).2

/-- The stored guest counts are in range: `verified_guest_count ∈ [0,10]`
and `expected_guest_count ∈ [1,10]`. -/
def countsInRange (s : Session) : Prop :=
  (∃ v, s.verified_guest_count = some v ∧ 0 ≤ v ∧ v ≤ 10) ∧
    (∃ e, s.expected_guest_count = some e ∧ 1 ≤ e ∧ e ≤ 10)

/-- The spec's full invariant set:
`0 ≤ verified_guest_count ≤ expected_guest_count ≤ 10` and
`expected_guest_count ≥ 1` on the stored row. -/
def fullInvariant (s : Session) : Prop :=
  ∃ v e, s.verified_guest_count = some v ∧ s.expected_guest_count = some e ∧
    0 ≤ v ∧ v ≤ e ∧ e ≤ 10 ∧ 1 ≤ e

/-! Concrete inputs used to instantiate the theorems below. -/

/-- A Rekognition result passing the liveness heuristic with confidence 90. -/
def passingFace : Option FaceDetail :=
  some { eyes_open := some true, brightness := some 50, confidence := some 90 }

/-- A Rekognition result failing the liveness heuristic (eyes closed). -/
def failingFace : Option FaceDetail :=
  some { eyes_open := some false, brightness := some 50, confidence := some 90 }

/-- A session that already has a stored document pointer. -/
def c1Session : Session :=
  { start_session "c1tok" with
    document_url := some ("s3://" ++ bucketName ++ "/demo/c1tok/document.jpg") }

/-- A Reservation Directory whose bookings all have two adults. -/
def c3Dir : String → String → Option BookingRow := fun _ _ => some { adults := some 2 }

/-- Stage 1 of the invariant-refuting trace: guest info saved against a
two-adult booking. -/
def c3s1 : Session :=
  (update_guest (start_session "c3tok") (some "Anna Smith") (some "R-1") none none c3Dir).2

/-- Stage 2: document uploaded. -/
def c3s2 : Session := (upload_document c3s1 (some 2000) none none).2

/-- Stage 3: first passing selfie. -/
def c3s3 : Session := (verify_face c3s2 passingFace (some 90)).2

/-- Stage 4: second passing selfie — both guests verified. -/
def c3s4 : Session := (verify_face c3s3 passingFace (some 90)).2

/-- Stage 5: `update_guest` overrides the expected count down to 1 while
two guests stay verified. -/
def c3Trace : Session :=
  (update_guest c3s4 (some "Anna Smith") (some "R-1") none (some 1) c3Dir).2

/-- A session with a stored document pointer (score-bound instance). -/
def c4Session : Session :=
  { start_session "c4tok" with
    document_url := some ("s3://" ++ bucketName ++ "/demo/c4tok/document.jpg") }

/-- Line 1 of a well-formed synthetic TD3 MRZ (44 characters). -/
def c5Line1 : String := "P<UTOERIKSSON<<ANNA<MARIA<<<<<<<<<<<<<<<<<<<"

/-- Line 2 of the same synthetic TD3 MRZ (44 characters). -/
def c5Line2 : String := "L898902C36UTO7408122F1204159ZE184226B<<<<<10"

/-- The two TD3 lines as one raw OCR text with a line break. -/
def c5Sample : String := c5Line1 ++ "\n" ++ c5Line2

/-- Textract fields carrying both an OCR nationality and an MRZ whose
nationality conflicts with it. -/
def c6Fields : List AnalyzeIdField :=
  [{ typeText := some "Nationality", valueText := some "USA" },
   { typeText := some "MRZ Code",
     valueText := some
       "P<UTOERIKSSON<<ANNA<MARIA<<<<<<<<<<<<<<<<<<<L898902C36UTO7408122F1204159ZE184226B<<<<<10" }]

/-- A session with no explicit step and only a document pointer. -/
def c7Session : Session :=
  { start_session "c7tok" with
    current_step := none
    document_url := some ("s3://" ++ bucketName ++ "/demo/c7tok/document.jpg") }

/-- A Reservation Directory with no bookings at all. -/
def c8Dir : String → String → Option BookingRow := fun _ _ => none

/-- The session a rejected `update_guest` must leave untouched. -/
def c8Session : Session := start_session "c8tok"

/-- A Reservation Directory whose bookings all have one adult. -/
def c9Dir : String → String → Option BookingRow := fun _ _ => some { adults := some 1 }

/-- Guest info saved against a one-adult booking. -/
def c9s1 : Session :=
  (update_guest (start_session "c9tok") (some "Anna Smith") (some "R-1") none none c9Dir).2

/-- Document uploaded on the one-adult session. -/
def c9s2 : Session := (upload_document c9s1 (some 2000) none none).2

/-- A reachable fully-verified session: one-adult booking, document
uploaded, one passing selfie. -/
def c9Verified : Session := (verify_face c9s2 passingFace (some 90)).2

/-- The session after a failed selfie submission on `c9Verified`. -/
def c9After : Session := (verify_face c9Verified failingFace (some 90)).2

/-- A session holding guest info saved by an earlier `update_guest`. -/
def c10Session : Session :=
  { start_session "c10tok" with
    guest_name := some "Anna Smith"
    room_number := some "R-1" }

/-! Helper lemmas. -/

theorem ofNatAux_toNat (n : ℕ) (hv : n.isValidChar) : (Char.ofNatAux n hv).toNat = n := by
  simp [Char.ofNatAux, Char.toNat, UInt32.toNat, BitVec.toNat_ofNatLt]

theorem toUpper_ne_lf (c : Char) (hc : c ≠ '\n') : c.toUpper ≠ '\n' := by
  intro h
  unfold Char.toUpper at h
  simp only [] at h
  by_cases hr : c.toNat ≥ 97 ∧ c.toNat ≤ 122
  · rw [if_pos hr] at h
    have hv : (c.toNat - 32).isValidChar := by
      left
      omega
    rw [Char.ofNat, dif_pos hv] at h
    have h2 := congrArg Char.toNat h
    have h10 : ('\n').toNat = 10 := by decide
    rw [h10, ofNatAux_toNat] at h2
    omega
  · rw [if_neg hr] at h
    exact hc h

theorem lf_not_mem_cleanMrz (mrz : String) : '\n' ∉ cleanMrz mrz := by
  unfold cleanMrz
  simp only [List.mem_map, List.mem_filter]
  rintro ⟨c, ⟨-, hws⟩, hup⟩
  have hc : c ≠ '\n' := by
    intro heq
    rw [heq] at hws
    simp [isJsWs] at hws
  exact toUpper_ne_lf c hc hup

theorem clampInt_mem (v : Option ℤ) (lo hi : ℤ) (h : lo ≤ hi) :
    lo ≤ clampInt v lo hi ∧ clampInt v lo hi ≤ hi := by
  cases v with
  | none => simpa [clampInt, toIntOrNull]
  | some x =>
    simp only [clampInt, toIntOrNull]
    omega

theorem clampInt_of_mem (x lo hi : ℤ) (h1 : lo ≤ x) (h2 : x ≤ hi) :
    clampInt (some x) lo hi = x := by
  simp only [clampInt, toIntOrNull]
  omega

/-- C2: recording a successful verification outcome sets the verified count
to `min(verified + 1, expected)` — never exceeding the expected count — a
failed outcome leaves it unchanged, and the needs-more-guests flag is
recomputed as `new verified < expected` after the mutation, for every
starting pair of counts. -/
theorem c2_record_verification_outcome (v e : ℤ) :
    (recordVerificationOutcome v e true).1 = min (v + 1) e ∧
    (recordVerificationOutcome v e true).1 ≤ e ∧
    (recordVerificationOutcome v e false).1 = v ∧
    (∀ success : Bool, (recordVerificationOutcome v e success).2
        = decide ((recordVerificationOutcome v e success).1 < e)) :=
  ⟨rfl, min_le_right _ _, rfl, fun _ => rfl⟩

/-- C8: an `update_guest` whose normalized guest name and reservation
reference have no match in the Reservation Directory is rejected with the
403 result and returns the session row exactly as it was — no field is
written on the fail-closed path. -/
theorem c8_update_guest_not_found (s : Session) (gname bval : String)
    (rn : Option String) (egc : Option ℤ) (dir : String → String → Option BookingRow)
    (hg : gname ≠ "") (hb : bval ≠ "")
    (hdir : dir (normalizeGuestName gname) (normalizeReservationNumber bval) = none) :
    update_guest s (some gname) (some bval) rn egc dir
      = (UpdateGuestRes.reservationNotFound, s) := by
  unfold update_guest
  simp [truthyStr, hg, hb, hdir]

theorem c8_witness :
    update_guest c8Session (some "John Doe") (some "ZZ-9") none none c8Dir
      = (UpdateGuestRes.reservationNotFound, c8Session) :=
  c8_update_guest_not_found c8Session "John Doe" "ZZ-9" none none c8Dir
    (by decide) (by decide) rfl

/-- C10: an `upload_document` that omits the optional guest inputs
overwrites the stored `guest_name` and `room_number` with null alongside
the document pointer, step, status and pending extraction marker — earlier
guest info does not survive the upload. -/
theorem c10_upload_overwrites_guest_info (s : Session) (len : ℕ) (hlen : ¬ len < 1000) :
    (upload_document s (some len) none none).1 = UploadRes.accepted ∧
    (upload_document s (some len) none none).2.guest_name = none ∧
    (upload_document s (some len) none none).2.room_number = none ∧
    (upload_document s (some len) none none).2.status = some Status.document_uploaded ∧
    (upload_document s (some len) none none).2.current_step = some Step.selfie ∧
    (upload_document s (some len) none none).2.extracted_info = some pendingExtractedInfo := by
  unfold upload_document
  simp [hlen, truthyStr]

theorem c10_witness :
    c10Session.guest_name = some "Anna Smith" ∧
    (upload_document c10Session (some 2000) none none).2.guest_name = none ∧
    (upload_document c10Session (some 2000) none none).2.room_number = none :=
  ⟨rfl,
    (c10_upload_overwrites_guest_info c10Session 2000 (by omega)).2.1,
    (c10_upload_overwrites_guest_info c10Session 2000 (by omega)).2.2.1⟩

theorem verify_face_ok_spec (s : Session) (face : Option FaceDetail) (cmp : Option ℚ)
    (hok : (verify_face s face cmp).1 = VerifyRes.ok) :
    (verify_face s face cmp).2.status = some (statusToSetOf s face cmp) ∧
    (verify_face s face cmp).2.is_verified = some (overallVerifiedOf s face cmp) ∧
    (verify_face s face cmp).2.verification_score = some (verificationScoreOf face cmp) ∧
    (verify_face s face cmp).2.verified_guest_count = some (verifiedAfterOf s face cmp) ∧
    (verify_face s face cmp).2.requires_additional_guest = some (requiresOf s face cmp) ∧
    (verify_face s face cmp).2.expected_guest_count = some (expectedOf s) ∧
    (verify_face s face cmp).2.current_step = some Step.results := by
  by_cases hdoc : (s.document_url.getD "") = ""
  · exfalso
    unfold verify_face at hok
    rw [if_pos hdoc] at hok
    simp at hok
  · cases hp : parseS3Url (s.document_url.getD "") with
    | none =>
      exfalso
      unfold verify_face at hok
      rw [if_neg hdoc] at hok
      simp only [] at hok
      rw [hp] at hok
      simp at hok
    | some bk =>
      unfold verify_face
      rw [if_neg hdoc]
      simp only []
      rw [hp]
      simp

theorem decision_of_passingFace : guestDecision passingFace (some 90) = true := by
  norm_num [guestDecision, derivedIsLive, derivedSimilarity, passingFace]

theorem decision_of_failingFace : guestDecision failingFace (some 90) = false := by
  norm_num [guestDecision, derivedIsLive, failingFace]

/-- C1: on a session with a stored document pointer, `verify_face` decides
the guest by `is_live AND similarity ≥ 0.65`; the written status is
`verified` when the guest passed and no more guests are needed,
`partial_verified` when the guest passed but more are needed, `failed`
otherwise; the session-level `is_verified` is true only in the `verified`
case. -/
theorem c1_verify_face_decision (s : Session) (face : Option FaceDetail) (cmp : Option ℚ)
    (hok : (verify_face s face cmp).1 = VerifyRes.ok) :
    guestDecision face cmp
        = (derivedIsLive face && decide (derivedSimilarity cmp ≥ (0.65 : ℚ))) ∧
    (guestDecision face cmp = true → requiresOf s face cmp = false →
      (verify_face s face cmp).2.status = some Status.verified ∧
      (verify_face s face cmp).2.is_verified = some true) ∧
    (guestDecision face cmp = true → requiresOf s face cmp = true →
      (verify_face s face cmp).2.status = some Status.partial_verified ∧
      (verify_face s face cmp).2.is_verified = some false) ∧
    (guestDecision face cmp = false →
      (verify_face s face cmp).2.status = some Status.failed ∧
      (verify_face s face cmp).2.is_verified = some false) := by
  obtain ⟨hst, hiv, -⟩ := verify_face_ok_spec s face cmp hok
  refine ⟨rfl, ?_, ?_, ?_⟩
  · intro hdec hreq
    rw [hst, hiv]
    simp [statusToSetOf, overallVerifiedOf, hdec, hreq]
  · intro hdec hreq
    rw [hst, hiv]
    simp [statusToSetOf, overallVerifiedOf, hdec, hreq]
  · intro hdec
    rw [hst, hiv]
    simp [statusToSetOf, overallVerifiedOf, hdec]

theorem requiresOf_of_counts (s : Session) (face : Option FaceDetail) (cmp : Option ℚ)
    (hv : verifiedBeforeOf s = 0) (he : expectedOf s = 1)
    (hd : guestDecision face cmp = true) : requiresOf s face cmp = false := by
  unfold requiresOf recordVerificationOutcome
  rw [hv, he, hd]
  decide

theorem c1_witness :
    (verify_face c1Session passingFace (some 90)).2.status = some Status.verified ∧
    (verify_face c1Session passingFace (some 90)).2.is_verified = some true :=
  (c1_verify_face_decision c1Session passingFace (some 90) (by decide)).2.1
    decision_of_passingFace
    (requiresOf_of_counts c1Session passingFace (some 90) (by decide) (by decide)
      decision_of_passingFace)

/-- C4: the stored verification score equals
`(is_live ? 0.4 : 0) + liveness_score*0.3 + similarity*0.3`, and with the
liveness score and similarity each in `[0,1]` the score never exceeds 1. -/
theorem c4_verification_score (s : Session) (face : Option FaceDetail) (cmp : Option ℚ)
    (hok : (verify_face s face cmp).1 = VerifyRes.ok)
    (h1 : 0 ≤ derivedLivenessScore face) (h2 : derivedLivenessScore face ≤ 1)
    (h3 : 0 ≤ derivedSimilarity cmp) (h4 : derivedSimilarity cmp ≤ 1) :
    (verify_face s face cmp).2.verification_score
        = some ((if derivedIsLive face then (0.4 : ℚ) else 0)
            + derivedLivenessScore face * (0.3 : ℚ)
            + derivedSimilarity cmp * (0.3 : ℚ)) ∧
    (∀ q : ℚ, (verify_face s face cmp).2.verification_score = some q → q ≤ 1) := by
  obtain ⟨-, -, hsc, -⟩ := verify_face_ok_spec s face cmp hok
  have hbound : verificationScoreOf face cmp ≤ 1 := by
    unfold verificationScoreOf
    split <;> nlinarith
  refine ⟨by rw [hsc]; rfl, ?_⟩
  intro q hq
  rw [hsc] at hq
  obtain rfl : verificationScoreOf face cmp = q := Option.some_injective _ hq
  exact hbound

theorem c4_witness :
    (verify_face c4Session passingFace (some 90)).2.verification_score
        = some ((if derivedIsLive passingFace then (0.4 : ℚ) else 0)
            + derivedLivenessScore passingFace * (0.3 : ℚ)
            + derivedSimilarity (some 90) * (0.3 : ℚ)) ∧
    (∀ q : ℚ, (verify_face c4Session passingFace (some 90)).2.verification_score = some q →
      q ≤ 1) :=
  c4_verification_score c4Session passingFace (some 90) (by decide)
    (by norm_num [derivedLivenessScore, passingFace])
    (by norm_num [derivedLivenessScore, passingFace])
    (by norm_num [derivedSimilarity])
    (by norm_num [derivedSimilarity])

theorem c9Verified_fields :
    c9Verified.status = some Status.verified ∧
    c9Verified.is_verified = some true ∧
    c9Verified.verified_guest_count = some 1 ∧
    c9Verified.expected_guest_count = some 1 := by
  have hok : (verify_face c9s2 passingFace (some 90)).1 = VerifyRes.ok := by decide
  obtain ⟨hst, hiv, -, hvg, -, hexp, -⟩ := verify_face_ok_spec c9s2 passingFace (some 90) hok
  have hv0 : verifiedBeforeOf c9s2 = 0 := by decide
  have he1 : expectedOf c9s2 = 1 := by decide
  have hreq : requiresOf c9s2 passingFace (some 90) = false :=
    requiresOf_of_counts c9s2 passingFace (some 90) hv0 he1 decision_of_passingFace
  refine ⟨?_, ?_, ?_, ?_⟩
  · rw [show c9Verified.status = (verify_face c9s2 passingFace (some 90)).2.status from rfl,
      hst]
    simp [statusToSetOf, decision_of_passingFace, hreq]
  · rw [show c9Verified.is_verified
        = (verify_face c9s2 passingFace (some 90)).2.is_verified from rfl, hiv]
    simp [overallVerifiedOf, decision_of_passingFace, hreq]
  · rw [show c9Verified.verified_guest_count
        = (verify_face c9s2 passingFace (some 90)).2.verified_guest_count from rfl, hvg]
    unfold verifiedAfterOf recordVerificationOutcome
    rw [decision_of_passingFace, hv0, he1]
    decide
  · rw [show c9Verified.expected_guest_count
        = (verify_face c9s2 passingFace (some 90)).2.expected_guest_count from rfl, hexp, he1]

theorem c9_counterexample :
    Reachable c9Verified ∧
    c9Verified.status = some Status.verified ∧
    c9Verified.is_verified = some true ∧
    c9After.status = some Status.failed ∧
    c9After.is_verified = some false := by
  obtain ⟨hst, hiv, -⟩ := c9Verified_fields
  have hok : (verify_face c9Verified failingFace (some 90)).1 = VerifyRes.ok := by decide
  obtain ⟨hst2, hiv2, -⟩ := verify_face_ok_spec c9Verified failingFace (some 90) hok
  refine ⟨?_, hst, hiv, ?_, ?_⟩
  · exact Reachable.verify_face _ _ _
      (Reachable.upload_document _ _ _ _
        (Reachable.update_guest _ _ _ _ _ _ (Reachable.start "c9tok")))
  · rw [show c9After.status
        = (verify_face c9Verified failingFace (some 90)).2.status from rfl, hst2]
    simp [statusToSetOf, decision_of_failingFace]
  · rw [show c9After.is_verified
        = (verify_face c9Verified failingFace (some 90)).2.is_verified from rfl, hiv2]
    simp [overallVerifiedOf, decision_of_failingFace]

/-- C9 (amended): once the verified count has reached the expected count, a
further successful `verify_face` keeps the session in the `verified` status
with `is_verified` true, but the status is not terminal: a failed
submission overwrites it with `failed` and unsets `is_verified`. -/
theorem c9_amended (s : Session) (face : Option FaceDetail) (cmp : Option ℚ)
    (hok : (verify_face s face cmp).1 = VerifyRes.ok)
    (hquorum : expectedOf s ≤ verifiedBeforeOf s) :
    (guestDecision face cmp = true →
      (verify_face s face cmp).2.status = some Status.verified ∧
      (verify_face s face cmp).2.is_verified = some true) ∧
    (guestDecision face cmp = false →
      (verify_face s face cmp).2.status = some Status.failed ∧
      (verify_face s face cmp).2.is_verified = some false) := by
  obtain ⟨hst, hiv, -⟩ := verify_face_ok_spec s face cmp hok
  have hreq : ∀ b, guestDecision face cmp = b → requiresOf s face cmp = false := by
    intro b hb
    unfold requiresOf recordVerificationOutcome
    rw [hb]
    cases b <;> simp <;> omega
  refine ⟨?_, ?_⟩
  · intro hdec
    rw [hst, hiv]
    simp [statusToSetOf, overallVerifiedOf, hdec, hreq true hdec]
  · intro hdec
    rw [hst, hiv]
    simp [statusToSetOf, overallVerifiedOf, hdec]

theorem c9_amended_witness :
    (verify_face c9Verified passingFace (some 90)).2.status = some Status.verified ∧
    (verify_face c9Verified passingFace (some 90)).2.is_verified = some true := by
  obtain ⟨-, -, hvg, hexp⟩ := c9Verified_fields
  have hquorum : expectedOf c9Verified ≤ verifiedBeforeOf c9Verified := by
    unfold expectedOf verifiedBeforeOf
    rw [hvg, hexp]
    decide
  exact (c9_amended c9Verified passingFace (some 90) (by decide) hquorum).1
    decision_of_passingFace

/-- C7: step inference is total — on every session record it returns exactly
one of the four steps, never null — and follows the priority order: the
explicit `current_step` when present, else `results` when the verified flag
or a verification score is set, else `results` when a selfie pointer
exists, else `selfie` when a document pointer exists, else `document` when
a guest name or reservation reference is present, else `welcome`. -/
theorem c7_infer_step_total (s : Session) :
    inferStepFromSession none = Step.welcome ∧
    (∀ st, s.current_step = some st → inferStepFromSession (some s) = st) ∧
    (s.current_step = none →
      (s.is_verified = some true ∨ s.verification_score ≠ none) →
      inferStepFromSession (some s) = Step.results) ∧
    (s.current_step = none → s.is_verified ≠ some true → s.verification_score = none →
      truthyStr s.selfie_url ≠ none → inferStepFromSession (some s) = Step.results) ∧
    (s.current_step = none → s.is_verified ≠ some true → s.verification_score = none →
      truthyStr s.selfie_url = none → truthyStr s.document_url ≠ none →
      inferStepFromSession (some s) = Step.selfie) ∧
    (s.current_step = none → s.is_verified ≠ some true → s.verification_score = none →
      truthyStr s.selfie_url = none → truthyStr s.document_url = none →
      (truthyStr s.guest_name ≠ none ∨ truthyStr s.room_number ≠ none) →
      inferStepFromSession (some s) = Step.document) ∧
    (s.current_step = none → s.is_verified ≠ some true → s.verification_score = none →
      truthyStr s.selfie_url = none → truthyStr s.document_url = none →
      truthyStr s.guest_name = none → truthyStr s.room_number = none →
      inferStepFromSession (some s) = Step.welcome) := by
  refine ⟨rfl, ?_, ?_, ?_, ?_, ?_, ?_⟩
  · intro st hcs
    simp [inferStepFromSession, hcs]
  · intro hcs hcond
    simp [inferStepFromSession, hcs, hcond]
  · intro hcs h1 h2 h3
    simp [inferStepFromSession, hcs, h1, h2, h3]
  · intro hcs h1 h2 h3 h4
    simp [inferStepFromSession, hcs, h1, h2, h3, h4]
  · intro hcs h1 h2 h3 h4 h5
    simp [inferStepFromSession, hcs, h1, h2, h3, h4, h5]
  · intro hcs h1 h2 h3 h4 h5 h6
    simp [inferStepFromSession, hcs, h1, h2, h3, h4, h5, h6]

theorem c7_witness : inferStepFromSession (some c7Session) = Step.selfie :=
  (c7_infer_step_total c7Session).2.2.2.2.1 rfl (by decide) rfl rfl (by decide)

theorem update_guest_fields (s : Session) (gn br rn : Option String) (egc : Option ℤ)
    (dir : String → String → Option BookingRow) :
    (update_guest s gn br rn egc dir).2.verified_guest_count = s.verified_guest_count ∧
    ((update_guest s gn br rn egc dir).2.expected_guest_count = s.expected_guest_count ∨
      ∃ e, (update_guest s gn br rn egc dir).2.expected_guest_count = some e ∧
        1 ≤ e ∧ e ≤ 10) := by
  simp only [update_guest]
  split
  · split
    · exact ⟨rfl, Or.inl rfl⟩
    · refine ⟨rfl, Or.inr ⟨_, rfl, ?_⟩⟩
      cases egc with
      | none => exact clampInt_mem _ 1 10 (by norm_num)
      | some o => exact clampInt_mem _ 1 10 (by norm_num)
  · exact ⟨rfl, Or.inl rfl⟩

theorem upload_document_counts (s : Session) (len : Option ℕ) (gn rn : Option String) :
    (upload_document s len gn rn).2.verified_guest_count = s.verified_guest_count ∧
    (upload_document s len gn rn).2.expected_guest_count = s.expected_guest_count := by
  unfold upload_document
  cases len with
  | none => exact ⟨rfl, rfl⟩
  | some l => by_cases h : l < 1000 <;> simp [h]

theorem verify_face_fields (s : Session) (face : Option FaceDetail) (cmp : Option ℚ) :
    (verify_face s face cmp).2 = s ∨
    ((verify_face s face cmp).2.verified_guest_count = some (verifiedAfterOf s face cmp) ∧
      (verify_face s face cmp).2.expected_guest_count = some (expectedOf s)) := by
  unfold verify_face
  by_cases hdoc : (s.document_url.getD "") = ""
  · rw [if_pos hdoc]
    exact Or.inl rfl
  · rw [if_neg hdoc]
    simp only []
    cases parseS3Url (s.document_url.getD "") with
    | none => exact Or.inl rfl
    | some bk => exact Or.inr ⟨rfl, rfl⟩

theorem verifiedAfterOf_range (s : Session) (face : Option FaceDetail) (cmp : Option ℚ) :
    0 ≤ verifiedAfterOf s face cmp ∧ verifiedAfterOf s face cmp ≤ 10 := by
  have h1 := clampInt_mem s.verified_guest_count 0 10 (by norm_num)
  have h2 := clampInt_mem s.expected_guest_count 1 10 (by norm_num)
  unfold verifiedAfterOf recordVerificationOutcome verifiedBeforeOf expectedOf
  cases guestDecision face cmp <;> simp <;> omega

theorem expectedOf_range (s : Session) : 1 ≤ expectedOf s ∧ expectedOf s ≤ 10 :=
  clampInt_mem s.expected_guest_count 1 10 (by norm_num)

theorem counts_in_range_of_reachable (s : Session) (h : Reachable s) : countsInRange s := by
  induction h with
  | start tok =>
    exact ⟨⟨0, rfl, by norm_num⟩, ⟨1, rfl, by norm_num⟩⟩
  | update_guest s gn br rn egc dir h ih =>
    obtain ⟨hv, he⟩ := update_guest_fields s gn br rn egc dir
    refine ⟨?_, ?_⟩
    · rw [hv]
      exact ih.1
    · cases he with
      | inl h1 =>
        rw [h1]
        exact ih.2
      | inr h1 => exact h1
  | upload_document s len gn rn h ih =>
    obtain ⟨hv, he⟩ := upload_document_counts s len gn rn
    rw [countsInRange, hv, he]
    exact ih
  | verify_face s face cmp h ih =>
    cases verify_face_fields s face cmp with
    | inl h1 =>
      rw [h1]
      exact ih
    | inr h1 =>
      refine ⟨⟨_, h1.1, verifiedAfterOf_range s face cmp⟩,
        ⟨_, h1.2, expectedOf_range s⟩⟩

theorem c3_counterexample :
    Reachable c3Trace ∧
    c3Trace.verified_guest_count = some 2 ∧
    c3Trace.expected_guest_count = some 1 ∧
    ¬ fullInvariant c3Trace := by
  have hok2 : (verify_face c3s2 passingFace (some 90)).1 = VerifyRes.ok := by decide
  obtain ⟨-, -, -, hvg2, -, hexp2, -⟩ := verify_face_ok_spec c3s2 passingFace (some 90) hok2
  have hv3 : c3s3.verified_guest_count = some 1 := by
    rw [show c3s3.verified_guest_count
        = (verify_face c3s2 passingFace (some 90)).2.verified_guest_count from rfl, hvg2]
    unfold verifiedAfterOf recordVerificationOutcome
    rw [decision_of_passingFace, show verifiedBeforeOf c3s2 = 0 from by decide,
      show expectedOf c3s2 = 2 from by decide]
    decide
  have he3 : c3s3.expected_guest_count = some 2 := by
    rw [show c3s3.expected_guest_count
        = (verify_face c3s2 passingFace (some 90)).2.expected_guest_count from rfl, hexp2]
    decide
  have hok3 : (verify_face c3s3 passingFace (some 90)).1 = VerifyRes.ok := by decide
  obtain ⟨-, -, -, hvg3, -, -⟩ := verify_face_ok_spec c3s3 passingFace (some 90) hok3
  have hv4 : c3s4.verified_guest_count = some 2 := by
    rw [show c3s4.verified_guest_count
        = (verify_face c3s3 passingFace (some 90)).2.verified_guest_count from rfl, hvg3]
    unfold verifiedAfterOf recordVerificationOutcome verifiedBeforeOf expectedOf
    rw [decision_of_passingFace, hv3, he3]
    decide
  have hvT : c3Trace.verified_guest_count = some 2 := by
    rw [show c3Trace.verified_guest_count
        = (update_guest c3s4 (some "Anna Smith") (some "R-1") none (some 1) c3Dir).2.verified_guest_count
        from rfl,
      (update_guest_fields c3s4 (some "Anna Smith") (some "R-1") none (some 1) c3Dir).1]
    exact hv4
  have heT : c3Trace.expected_guest_count = some 1 := by decide
  refine ⟨?_, hvT, heT, ?_⟩
  · exact Reachable.update_guest _ _ _ _ _ _
      (Reachable.verify_face _ _ _
        (Reachable.verify_face _ _ _
          (Reachable.upload_document _ _ _ _
            (Reachable.update_guest _ _ _ _ _ _ (Reachable.start "c3tok")))))
  · rintro ⟨v, e, hv, he, h0, hve, h10, h1⟩
    rw [hvT] at hv
    rw [heT] at he
    cases hv
    cases he
    omega

/-- C3 (amended): every reachable session keeps
`0 ≤ verified_guest_count ≤ 10` and `1 ≤ expected_guest_count ≤ 10`;
`start` establishes the full invariant
`0 ≤ verified ≤ expected ≤ 10 ∧ expected ≥ 1`, and `verify_face` and
`upload_document` preserve it — but `update_guest` can reset
`expected_guest_count` below an already-achieved `verified_guest_count`,
so `verified ≤ expected` does not hold in every reachable state. -/
theorem c3_amended :
    (∀ tok, fullInvariant (start_session tok)) ∧
    (∀ s, Reachable s → countsInRange s) ∧
    (∀ (s : Session) (face : Option FaceDetail) (cmp : Option ℚ),
      fullInvariant s → fullInvariant (verify_face s face cmp).2) ∧
    (∀ (s : Session) (len : Option ℕ) (gn rn : Option String),
      fullInvariant s → fullInvariant (upload_document s len gn rn).2) := by
  refine ⟨?_, counts_in_range_of_reachable, ?_, ?_⟩
  · intro tok
    exact ⟨0, 1, rfl, rfl, by norm_num⟩
  · intro s face cmp ⟨v, e, hv, he, h0, hve, h10, h1⟩
    cases verify_face_fields s face cmp with
    | inl hsame =>
      rw [hsame]
      exact ⟨v, e, hv, he, h0, hve, h10, h1⟩
    | inr hfields =>
      refine ⟨verifiedAfterOf s face cmp, expectedOf s, hfields.1, hfields.2, ?_⟩
      have hvb : verifiedBeforeOf s = v := by
        unfold verifiedBeforeOf
        rw [hv]
        exact clampInt_of_mem v 0 10 h0 (by omega)
      have hex : expectedOf s = e := by
        unfold expectedOf
        rw [he]
        exact clampInt_of_mem e 1 10 h1 h10
      unfold verifiedAfterOf recordVerificationOutcome
      rw [hvb, hex]
      cases guestDecision face cmp <;> simp <;> omega
  · intro s len gn rn ⟨v, e, hv, he, hrest⟩
    obtain ⟨h1, h2⟩ := upload_document_counts s len gn rn
    exact ⟨v, e, by rw [h1]; exact hv, by rw [h2]; exact he, hrest⟩

theorem c3_amended_witness :
    countsInRange (start_session "c3witness") ∧ fullInvariant (start_session "c3witness") :=
  ⟨c3_amended.2.1 (start_session "c3witness") (Reachable.start "c3witness"),
    c3_amended.1 "c3witness"⟩

/-- C5: when the cleaned (whitespace-stripped, uppercased) text is shorter
than 44 characters the TD3 parser returns null without throwing; and when
the cleaned text forms two 44-character lines, the parser extracts, from
line 2 right-padded to 44 characters with `<`, the document number from
offsets [0:9], nationality from [10:13], date of birth from [13:19], sex
from [20:21] and expiration from [21:27], stripping filler from each field
and turning empty-after-stripping fields into null. -/
theorem c5_mrz_td3 :
    (∀ mrz : String, (cleanMrz mrz).length < 44 → parseMrzTD3 mrz = none) ∧
    (∀ (mrz : String) (l1 l2 : List Char),
      cleanMrz mrz = l1 ++ l2 → l1.length = 44 → l2.length = 44 →
      parseMrzTD3 mrz = some
        { passport_number := stripFiller (l2.take 9)
          nationality := stripFiller ((l2.drop 10).take 3)
          sex := stripFiller ((l2.drop 20).take 1)
          dob_yymmdd := stripFiller ((l2.drop 13).take 6)
          exp_yymmdd := stripFiller ((l2.drop 21).take 6)
          line1 := some (String.mk l1)
          line2 := some (String.mk l2) }) := by
  constructor
  · intro mrz hlen
    unfold parseMrzTD3
    simp only []
    have hlines : mrzLines (cleanMrz mrz) = [] := by
      unfold mrzLines
      rw [if_neg (by simpa using lf_not_mem_cleanMrz mrz),
        if_neg (by omega), if_neg (by omega)]
    rw [hlines]
    simp
  · intro mrz l1 l2 hsplit h1 h2
    unfold parseMrzTD3
    simp only []
    have ht : (cleanMrz mrz).take 44 = l1 := by
      rw [hsplit, ← h1]
      exact List.take_left l1 l2
    have hd : (cleanMrz mrz).drop 44 = l2 := by
      rw [hsplit, ← h1]
      exact List.drop_left l1 l2
    have ht2 : l2.take 44 = l2 := by
      conv_lhs => rw [← h2]
      exact List.take_length l2
    have hlines : mrzLines (cleanMrz mrz) = [l1, l2] := by
      unfold mrzLines
      rw [if_neg (by simpa using lf_not_mem_cleanMrz mrz),
        if_pos (by rw [hsplit]; simp [h1, h2]), ht, hd, ht2]
    rw [hlines]
    rw [if_neg (by simp)]
    have hpad : l2 ++ List.replicate (44 - l2.length) '<' = l2 := by
      rw [h2]
      simp
    have hne1 : l1 ≠ [] := by
      intro h
      rw [h] at h1
      simp at h1
    have hne2 : l2 ≠ [] := by
      intro h
      rw [h] at h2
      simp at h2
    simp only [List.getD]
    have hg0 : ([l1, l2].get? 0).getD [] = l1 := rfl
    have hg1 : ([l1, l2].get? 1).getD [] = l2 := rfl
    rw [hg0, hg1, hpad]
    simp [nullableOfLine, hne1, hne2]

theorem c5_witness :
    parseMrzTD3 c5Sample = some
      { passport_number := some "L898902C3"
        nationality := some "UTO"
        sex := some "F"
        dob_yymmdd := some "740812"
        exp_yymmdd := some "120415"
        line1 := some c5Line1
        line2 := some c5Line2 } ∧
    parseMrzTD3 "too short" = none := by
  have h := c5_mrz_td3.2 c5Sample c5Line1.toList c5Line2.toList
    (by decide) (by decide) (by decide)
  refine ⟨?_, c5_mrz_td3.1 "too short" (by decide)⟩
  rw [h]
  decide

/-- C6: the extraction normalizer resolves each of nationality, sex,
document number, date of birth and expiration date by taking the OCR-named
field (through its alias chain) when present and falling back to the
MRZ-derived value only when every OCR alias is absent; exactly one source
wins per field, and a conflicting MRZ value never overrides an OCR one. -/
theorem c6_field_priority (fields : List AnalyzeIdField) :
    (∀ v, (rawGet (buildRaw fields) "nationality" <|> rawGet (buildRaw fields) "country")
        = some v → (parseAnalyzeIdFields fields).nationality = some v) ∧
    ((rawGet (buildRaw fields) "nationality" <|> rawGet (buildRaw fields) "country") = none →
      (parseAnalyzeIdFields fields).nationality
        = ((parseAnalyzeIdFields fields).mrz_parsed.bind ParsedMRZ.nationality)) ∧
    (∀ v, (rawGet (buildRaw fields) "sex" <|> rawGet (buildRaw fields) "gender")
        = some v → (parseAnalyzeIdFields fields).sex = some v) ∧
    ((rawGet (buildRaw fields) "sex" <|> rawGet (buildRaw fields) "gender") = none →
      (parseAnalyzeIdFields fields).sex
        = ((parseAnalyzeIdFields fields).mrz_parsed.bind ParsedMRZ.sex)) ∧
    (∀ v, (rawGet (buildRaw fields) "document_number"
          <|> rawGet (buildRaw fields) "passport_number"
          <|> rawGet (buildRaw fields) "id_number"
          <|> rawGet (buildRaw fields) "identity_document_number"
          <|> rawGet (buildRaw fields) "personal_number") = some v →
      (parseAnalyzeIdFields fields).document_number = some v) ∧
    ((rawGet (buildRaw fields) "document_number"
          <|> rawGet (buildRaw fields) "passport_number"
          <|> rawGet (buildRaw fields) "id_number"
          <|> rawGet (buildRaw fields) "identity_document_number"
          <|> rawGet (buildRaw fields) "personal_number") = none →
      (parseAnalyzeIdFields fields).document_number
        = ((parseAnalyzeIdFields fields).mrz_parsed.bind ParsedMRZ.passport_number)) ∧
    (∀ v, (rawGet (buildRaw fields) "date_of_birth" <|> rawGet (buildRaw fields) "dob")
        = some v → (parseAnalyzeIdFields fields).date_of_birth = some v) ∧
    ((rawGet (buildRaw fields) "date_of_birth" <|> rawGet (buildRaw fields) "dob") = none →
      (parseAnalyzeIdFields fields).date_of_birth
        = ((parseAnalyzeIdFields fields).mrz_parsed.bind ParsedMRZ.dob_yymmdd)) ∧
    (∀ v, (rawGet (buildRaw fields) "expiration_date"
          <|> rawGet (buildRaw fields) "expiry_date"
          <|> rawGet (buildRaw fields) "expiry") = some v →
      (parseAnalyzeIdFields fields).expiration_date = some v) ∧
    ((rawGet (buildRaw fields) "expiration_date"
          <|> rawGet (buildRaw fields) "expiry_date"
          <|> rawGet (buildRaw fields) "expiry") = none →
      (parseAnalyzeIdFields fields).expiration_date
        = ((parseAnalyzeIdFields fields).mrz_parsed.bind ParsedMRZ.exp_yymmdd)) := by
  unfold parseAnalyzeIdFields
  simp only []
  refine ⟨?_, ?_, ?_, ?_, ?_, ?_, ?_, ?_, ?_, ?_⟩ <;> intro h <;>
    first
      | (intro hsome
         rw [hsome]
         simp)
      | (rw [h]
         simp)

theorem c6_witness :
    (parseAnalyzeIdFields c6Fields).nationality = some "USA" ∧
    (parseAnalyzeIdFields c6Fields).mrz_parsed.bind ParsedMRZ.nationality = some "UTO" :=
  ⟨(c6_field_priority c6Fields).1 "USA" (by decide), by decide⟩

end RoomQuest
